import Mathlib

/-!
Shallow embedding of the multi-prompt analytical pipeline
(`agents/data_filter.py`, `agents/schema_discovery.py`,
`agents/question_analyzer.py`, `enhanced_guidance_reference_file__schema.py`).

Conventions of the embedding:
* Python floats are modelled as `ℚ`; the float value NaN is modelled by
  `none` in `Option ℚ`, and the float operations that can meet NaN are
  modelled by NaN-propagating operations on `Option ℚ` (a NaN comparison
  is false, exactly as for IEEE floats).
* A pandas DataFrame whose relevant columns are numeric is modelled by
  `Frame` (a column-name list plus rows of rationals).
* The unseeded `np.random.random` stream used by
  `DataFilterAgent._calculate_representative_score` is modelled by an
  explicit parameter `rng : ℕ → ℚ` giving the draws of one run.
* Free-text fields of the output records (timestamps, human-readable
  rationale strings) are omitted; counts and row data are kept.
-/

/- ---------------------------------------------------------------
   Float (NaN-aware) arithmetic helpers
   --------------------------------------------------------------- -/

/-- Float addition: NaN propagates. -/
def fadd : Option ℚ → Option ℚ → Option ℚ
  | some a, some b => some (a + b)
  | _, _ => none

/-- Float multiplication by finite values: NaN propagates. -/
def fmul : Option ℚ → Option ℚ → Option ℚ
  | some a, some b => some (a * b)
  | _, _ => none

/-- Float division; division by zero yields NaN (in this development the
numerator is zero whenever the denominator is, so `none` is the exact
float result). -/
def fdiv : Option ℚ → Option ℚ → Option ℚ
  | some a, some b => if b = 0 then none else some (a / b)
  | _, _ => none

/-- Float sum of a list, as Python `sum` over floats. -/
def fsum (l : List (Option ℚ)) : Option ℚ := l.foldl fadd (some 0)

/-- Python `min(a, b)` on floats where `a` may be NaN: `min` returns `b`
only when `b < a`, and every comparison against NaN is false. -/
def pymin (a : Option ℚ) (b : ℚ) : Option ℚ :=
  match a with
  | none => none
  | some x => if b < x then some b else some x

/- ---------------------------------------------------------------
   DataFilterAgent (src/agents/data_filter.py)
   --------------------------------------------------------------- -/

/-- A pandas DataFrame with numeric cells: column names plus rows of
values aligned with the column list. -/
structure Frame where
  cols : List String
  rows : List (List ℚ)
deriving DecidableEq, Repr

/-- Value of row `r` at column `c` (rows are aligned with `cols`). -/
def rowVal (cols : List String) (r : List ℚ) (c : String) : ℚ :=
  match cols.indexOf? c with
  | some i => r.getD i 0
  | none => 0

/-- The per-column values `data[c]`. -/
def Frame.colValues (f : Frame) (c : String) : List ℚ :=
  f.rows.map (fun r => rowVal f.cols r c)

/-- The `selection_weights` record of the filtering configuration. -/
structure SelectionWeights where
  representative : ℚ
  priority_score : ℚ
  sales_volume : ℚ
deriving DecidableEq, Repr

/-- Defaults returned by `DataFilterAgent._load_config`. -/
def default_selection_weights : SelectionWeights := ⟨0.4, 0.4, 0.2⟩

/-- `filtering_criteria` dictionary: `none` models an absent key, in
which case the corresponding `_load_config` default applies. -/
structure FilteringCriteria where
  max_rows : Option ℕ
  selection_weights : Option SelectionWeights
  min_priority_score : Option ℚ
  min_sales_volume : Option ℚ
deriving DecidableEq, Repr

/-- `DataFilterAgent._apply_basic_filters`: threshold filters on the
`priority_score` and `sales_volume` columns when present. -/
def apply_basic_filters (data : Frame) (criteria : FilteringCriteria) : Frame :=
  let min_priority := criteria.min_priority_score.getD 100
  let min_volume := criteria.min_sales_volume.getD 500
  let rows1 :=
    if data.cols.contains "priority_score" then
      data.rows.filter (fun r => decide (min_priority ≤ rowVal data.cols r "priority_score"))
    else data.rows
  let rows2 :=
    if data.cols.contains "sales_volume" then
      rows1.filter (fun r => decide (min_volume ≤ rowVal data.cols r "sales_volume"))
    else rows1
  ⟨data.cols, rows2⟩

/-- `DataFilterAgent._normalize_priority_score`: min-max normalization
`(v - min) / (max - min)` of the `priority_score` column.  When the
column maximum equals its minimum the pandas expression is `0 / 0`,
i.e. NaN for every row, modelled by `none`.  When the column is absent
the source returns the constant series `0.5`. -/
def normalize_priority_score (data : Frame) : List (Option ℚ) :=
  if data.cols.contains "priority_score" then
    match data.colValues "priority_score" with
    | [] => []
    | x :: xs =>
      let mn := xs.foldl min x
      let mx := xs.foldl max x
      (x :: xs).map (fun v => if mx - mn = 0 then none else some ((v - mn) / (mx - mn)))
  else
    List.replicate data.rows.length (some 0.5)

/-- `DataFilterAgent._normalize_volume_score`: the same normalization
applied to the `sales_volume` column. -/
def normalize_volume_score (data : Frame) : List (Option ℚ) :=
  if data.cols.contains "sales_volume" then
    match data.colValues "sales_volume" with
    | [] => []
    | x :: xs =>
      let mn := xs.foldl min x
      let mx := xs.foldl max x
      (x :: xs).map (fun v => if mx - mn = 0 then none else some ((v - mn) / (mx - mn)))
  else
    List.replicate data.rows.length (some 0.5)

/-- `DataFilterAgent._calculate_representative_score`: the source draws
`np.random.random(len(data))`, an unseeded PRNG stream; the draws of the
current run are the values `rng 0, rng 1, ...`. -/
def calculate_representative_score (rng : ℕ → ℚ) (data : Frame) : List ℚ :=
  (List.range data.rows.length).map rng

/-- One row together with the four score columns added by
`_calculate_selection_scores`. -/
structure ScoredRow where
  row : List ℚ
  representative_score : ℚ
  priority_score_norm : Option ℚ
  volume_score_norm : Option ℚ
  selection_score : Option ℚ
deriving DecidableEq, Repr

/-- Index-aligned combination of the rows with the three component
score series (pandas assigns each score series as a column of the same
index); the composite is
`w_r * representative + w_p * priority_norm + w_v * volume_norm`. -/
def combine_scores (w : SelectionWeights) :
    List (List ℚ) → List ℚ → List (Option ℚ) → List (Option ℚ) → List ScoredRow
  | r :: rs, rep :: reps, p :: ps, v :: vs =>
      { row := r
        representative_score := rep
        priority_score_norm := p
        volume_score_norm := v
        selection_score :=
          fadd (fadd (fmul (some w.representative) (some rep))
                     (fmul (some w.priority_score) p))
               (fmul (some w.sales_volume) v) } :: combine_scores w rs reps ps vs
  | _, _, _, _ => []

/-- `DataFilterAgent._calculate_selection_scores`: component scores plus
the weighted composite.  No validation of the weights takes place
anywhere in the source. -/
def calculate_selection_scores (rng : ℕ → ℚ) (data : Frame)
    (criteria : FilteringCriteria) : List ScoredRow :=
  let w := criteria.selection_weights.getD default_selection_weights
  combine_scores w data.rows (calculate_representative_score rng data)
    (normalize_priority_score data) (normalize_volume_score data)

/-- Stable insertion into a list sorted descending by `key`: the new
element goes after every element with a key that is not smaller. -/
def insertDescBy (key : ScoredRow → ℚ) (x : ScoredRow) : List ScoredRow → List ScoredRow
  | [] => [x]
  | y :: ys => if key y < key x then x :: y :: ys else y :: insertDescBy key x ys

/-- Stable descending sort (pandas `nlargest` uses `keep='first'`, so
ties keep the original row order). -/
def sortDescBy (key : ScoredRow → ℚ) (l : List ScoredRow) : List ScoredRow :=
  l.foldl (fun acc x => insertDescBy key x acc) []

/-- `scored_data.nlargest(n, "selection_score")`: rows whose key is NaN
are dropped, the rest are sorted descending (stable) and the first `n`
are taken. -/
def nlargest_by_selection (n : ℕ) (scored : List ScoredRow) : List ScoredRow :=
  ((sortDescBy (fun s => s.selection_score.getD 0)
      (scored.filter (fun s => s.selection_score.isSome))).take n)

/-- `DataFilterAgent._select_representative_subset`: top `max_rows` rows
by `selection_score`; dropping the four added score columns restores the
original columns. -/
def select_representative_subset (cols : List String) (scored : List ScoredRow)
    (criteria : FilteringCriteria) : Frame :=
  let max_rows := criteria.max_rows.getD 25
  ⟨cols, (nlargest_by_selection max_rows scored).map (fun s => s.row)⟩

/-- `DataFilterAgent.filter_data`: threshold filters, per-row scoring,
then top-N selection.  Returns the selected frame together with
`original_row_count` and `filtered_row_count`. -/
def filter_data (rng : ℕ → ℚ) (data : Frame) (criteria : FilteringCriteria) :
    Frame × ℕ × ℕ :=
  let filtered := apply_basic_filters data criteria
  let scored := calculate_selection_scores rng filtered criteria
  let final := select_representative_subset data.cols scored criteria
  (final, data.rows.length, final.rows.length)

/- ---------------------------------------------------------------
   SchemaDiscoveryAgent (src/agents/schema_discovery.py)
   --------------------------------------------------------------- -/

/-- pandas dtype families distinguished by `_discover_fresh_schema`
(`is_numeric_dtype`, `is_datetime64_any_dtype`, everything else). -/
inductive SDtype
  | numeric
  | datetime
  | object
deriving DecidableEq, Repr

/-- One column of a data source: its dtype plus cells, where `none`
models a null cell and the strings stand for the stringified values. -/
structure SDColumn where
  name : String
  dtype : SDtype
  cells : List (Option String)
deriving DecidableEq, Repr

/-- One readable data source: `nrows = len(df)` plus its columns. -/
structure SDFrame where
  nrows : ℕ
  cols : List SDColumn
deriving DecidableEq, Repr

/-- The `FieldMetadata` dataclass.  `completeness` is `Option ℚ` because
on a zero-row source the numpy expression `1 - nulls / len(df)` divides
by zero and yields float NaN. -/
structure FieldMetadata where
  name : String
  data_type : String
  business_purpose : String
  importance_tier : ℤ
  completeness : Option ℚ
  unique_values : ℕ
  sample_values : List String
  business_rules : List String
  relationships : List String
deriving DecidableEq, Repr

/-- The per-column statistics body of `_discover_fresh_schema`:
completeness `1 - nulls/len(df)`, `nunique` (non-null values),
up to 5 non-null sample values, and the dtype heuristic
(`categorical` when the distinct count is below half the row count,
otherwise `text`). -/
def analyze_column (nrows : ℕ) (col : SDColumn) : FieldMetadata :=
  let nulls := (col.cells.filter (fun c => c.isNone)).length
  let completeness : Option ℚ :=
    if nrows = 0 then none else some (1 - (nulls : ℚ) / (nrows : ℚ))
  let nonnull := col.cells.filterMap id
  let unique_values := nonnull.dedup.length
  let sample_values := nonnull.take 5
  let data_type :=
    match col.dtype with
    | .numeric => "numeric"
    | .datetime => "datetime"
    | .object =>
        if (unique_values : ℚ) < (nrows : ℚ) * 0.5 then "categorical" else "text"
  ⟨col.name, data_type, "", 3, completeness, unique_values, sample_values, [], []⟩

/-- `SchemaDiscoveryAgent._discover_fresh_schema`: each source is read
inside `try/except`; a source that cannot be read (`none`) is logged and
skipped.  A column already discovered from an earlier source is kept as
is.  When every source fails the function returns the empty mapping —
no exception is raised. -/
def discover_fresh_schema (data_paths : List (Option SDFrame)) : List FieldMetadata :=
  data_paths.foldl (fun acc src =>
    match src with
    | none => acc
    | some f =>
      f.cols.foldl (fun acc2 col =>
        if acc2.any (fun m => m.name == col.name) then acc2
        else acc2 ++ [analyze_column f.nrows col]) acc) []

/-- `SchemaDiscoveryAgent._calculate_discovery_confidence`.  The
knowledge base is the `fields` section of the config, a mapping from
field name to an entry whose stored `completeness` may be absent.
Returns `0.6 * mean(completeness) + 0.4 * enrichment_ratio` capped by
Python `min` at `0.95`. -/
def calculate_discovery_confidence (discovered_fields : List FieldMetadata)
    (config_fields : List (String × Option ℚ)) : Option ℚ :=
  if discovered_fields.isEmpty then some 0
  else
    let avg_completeness :=
      fdiv (fsum (discovered_fields.map (fun f => f.completeness)))
           (some (discovered_fields.length : ℚ))
    let enriched_count :=
      (discovered_fields.filter
        (fun f => config_fields.any (fun e => e.1 == f.name))).length
    let enrichment_ratio : ℚ := (enriched_count : ℚ) / (discovered_fields.length : ℚ)
    let confidence :=
      fadd (fmul avg_completeness (some 0.6)) (some (enrichment_ratio * 0.4))
    pymin confidence 0.95

/-- Element of the `new_fields` learning-insight list. -/
structure NewFieldRec where
  field_name : String
  data_type : String
  completeness : Option ℚ
  unique_values : ℕ
  sample_values : List String
deriving DecidableEq, Repr

/-- Element of the `updated_statistics` learning-insight list. -/
structure UpdatedStatRec where
  field_name : String
  old_completeness : ℚ
  new_completeness : Option ℚ
deriving DecidableEq, Repr

/-- The learning-insights record; the last two lists are initialised
empty and never filled by the source. -/
structure LearningInsights where
  new_fields : List NewFieldRec
  updated_statistics : List UpdatedStatRec
  potential_relationships : List String
  data_quality_insights : List String
deriving DecidableEq, Repr

/-- The dictionary appended to `new_fields` for a field absent from the
knowledge base. -/
def new_field_rec (f : FieldMetadata) : NewFieldRec :=
  ⟨f.name, f.data_type, f.completeness, f.unique_values, f.sample_values⟩

/-- The dictionary appended to `updated_statistics`; the stored
completeness defaults to `1.0` when the entry lacks the key. -/
def updated_stat_rec (f : FieldMetadata) (stored : Option ℚ) : UpdatedStatRec :=
  ⟨f.name, stored.getD 1, f.completeness⟩

/-- The update test `abs(fresh - stored) > 0.1`.  A NaN fresh
completeness compares false, as for floats. -/
def completeness_delta_flag (fresh : Option ℚ) (stored : ℚ) : Bool :=
  match fresh with
  | none => false
  | some c => decide (|c - stored| > 0.1)

/-- Loop body of `_identify_config_learning_opportunities`. -/
def learning_step (config_fields : List (String × Option ℚ))
    (ins : LearningInsights) (f : FieldMetadata) : LearningInsights :=
  match config_fields.lookup f.name with
  | none => { ins with new_fields := ins.new_fields ++ [new_field_rec f] }
  | some stored =>
    if completeness_delta_flag f.completeness (stored.getD 1) then
      { ins with updated_statistics := ins.updated_statistics ++ [updated_stat_rec f stored] }
    else ins

/-- `SchemaDiscoveryAgent._identify_config_learning_opportunities`
over the `fields` section of the config knowledge. -/
def identify_config_learning_opportunities (discovered_fields : List FieldMetadata)
    (config_fields : List (String × Option ℚ)) : LearningInsights :=
  discovered_fields.foldl (learning_step config_fields) ⟨[], [], [], []⟩

/-- One entry of the `field_definitions` section of the config
knowledge: the four semantic keys, each possibly absent. -/
structure ConfigFieldDef where
  purpose : Option String
  tier : Option ℤ
  business_rules : Option (List String)
  relationships : Option (List String)
deriving DecidableEq, Repr

/-- Per-field body of `_merge_discovery_with_config`: when the
knowledge base has an entry, overlay the four semantic attributes
(each `config_field.get(key, current)`); the freshly discovered
statistics are untouched. -/
def merge_one_field (config_fields : List (String × ConfigFieldDef))
    (f : FieldMetadata) : FieldMetadata :=
  match config_fields.lookup f.name with
  | none => f
  | some cf =>
    { f with
      business_purpose := cf.purpose.getD f.business_purpose
      importance_tier := cf.tier.getD f.importance_tier
      business_rules := cf.business_rules.getD f.business_rules
      relationships := cf.relationships.getD f.relationships }

/-- `SchemaDiscoveryAgent._merge_discovery_with_config` over the
`field_definitions` section of the config knowledge. -/
def merge_discovery_with_config (discovered_fields : List FieldMetadata)
    (config_fields : List (String × ConfigFieldDef)) : List FieldMetadata :=
  discovered_fields.map (merge_one_field config_fields)

/-- The five freshly discovered statistics of a field (name, dataType,
completeness, uniqueValueCount, sampleValues). -/
def field_statistics (f : FieldMetadata) : String × String × Option ℚ × ℕ × List String :=
  (f.name, f.data_type, f.completeness, f.unique_values, f.sample_values)

/- ---------------------------------------------------------------
   QuestionAnalyzerAgent (src/agents/question_analyzer.py)
   --------------------------------------------------------------- -/

/-- The closed `QuestionType` enumeration. -/
inductive QuestionType
  | performance_analysis
  | location_comparison
  | trend_identification
  | recommendation_generation
  | root_cause_analysis
  | unsupported
deriving DecidableEq, Repr

/-- `_load_question_patterns`, key `performance_analysis`. -/
def question_patterns_performance : List String :=
  ["which locations need attention", "underperforming locations",
   "performance issues", "locations with problems"]

/-- `_load_question_patterns`, key `location_comparison`. -/
def question_patterns_location : List String :=
  ["compare locations", "top vs bottom", "differences between", "best and worst"]

/-- `_load_question_patterns`, key `trend_identification`. -/
def question_patterns_trend : List String :=
  ["trends", "patterns over time", "changes in", "declining performance"]

/-- `_load_question_patterns`, key `recommendation_generation`
(the source keeps the capital `I` of "what should I do"). -/
def question_patterns_recommendation : List String :=
  ["what should I do", "recommendations", "actions to take", "how to improve"]

/-- Python `str.lower()`; the classifier only meets ASCII text, on which
this agrees with `Char.toLower`. -/
def pyLower (s : String) : String := ⟨s.toList.map Char.toLower⟩

/-- Contiguous-sublist test: the needle occurs in the haystack when it
is a prefix of some suffix. -/
def pyInChars (needle : List Char) : List Char → Bool
  | [] => needle.isEmpty
  | c :: t => needle.isPrefixOf (c :: t) || pyInChars needle t

/-- Python substring containment `needle in hay`. -/
def pyInStr (needle hay : String) : Bool :=
  pyInChars needle.toList hay.toList

/-- `QuestionAnalyzerAgent._classify_question_type`: the question is
lower-cased and the four pattern groups are tried in order; with no
match the default fallback is `PERFORMANCE_ANALYSIS`. -/
def classify_question_type (question : String) : QuestionType :=
  let question_lower := pyLower question
  if question_patterns_performance.any (fun p => pyInStr p question_lower) then
    .performance_analysis
  else if question_patterns_location.any (fun p => pyInStr p question_lower) then
    .location_comparison
  else if question_patterns_trend.any (fun p => pyInStr p question_lower) then
    .trend_identification
  else if question_patterns_recommendation.any (fun p => pyInStr p question_lower) then
    .recommendation_generation
  else
    .performance_analysis

/- ---------------------------------------------------------------
   SchemaDiscovery._get_all_available_fields
   (src/enhanced_guidance_reference_file__schema.py)
   --------------------------------------------------------------- -/

/-- `fnmatch` glob matching of a pattern against a name, `'*'` matching
any sequence and `'?'` any single character (on POSIX `fnmatch.fnmatch`
is case-sensitive; bracket classes, unused by this repository's exclude
lists, are treated literally). -/
def globMatch : List Char → List Char → Bool
  | [], cs => cs.isEmpty
  | '*' :: ps, cs => (cs.tails.map (globMatch ps)).any id
  | '?' :: ps, cs =>
      match cs with
      | [] => false
      | _ :: cs' => globMatch ps cs'
  | p :: ps, cs =>
      match cs with
      | [] => false
      | c :: cs' => p == c && globMatch ps cs'

/-- `fnmatch.fnmatch(col, pattern)`. -/
def pyFnmatch (name pat : String) : Bool := globMatch pat.toList name.toList

/-- Python string `<`: lexicographic comparison of the code points. -/
def charListLt : List Char → List Char → Bool
  | [], [] => false
  | [], _ :: _ => true
  | _ :: _, [] => false
  | a :: as, b :: bs => if a < b then true else if b < a then false else charListLt as bs

/-- Insertion into an ascending sorted list of strings. -/
def insertAscStr (x : String) : List String → List String
  | [] => [x]
  | y :: ys => if charListLt x.toList y.toList then x :: y :: ys else y :: insertAscStr x ys

/-- Python `sorted` on a list of strings. -/
def pySortedStr (l : List String) : List String := l.foldr insertAscStr []

/-- The DataFrame shape seen by `_get_all_available_fields`: its column
names and `len(df)`; pandas `df.empty` holds when either axis has
length 0. -/
structure GFrame where
  cols : List String
  nrows : ℕ
deriving DecidableEq, Repr

/-- Contribution of a single exclude entry to the `excluded_columns`
set: an exact hit on a column name excludes just that name (and skips
the wildcard branch via `continue`); otherwise an entry containing `'*'`
excludes every column it glob-matches. -/
def exclude_pattern_hits (all_df_columns : List String) (p : String) : List String :=
  if all_df_columns.contains p then [p]
  else if p.toList.contains '*' then all_df_columns.filter (fun c => pyFnmatch c p)
  else []

/-- The non-degenerate body of `_get_all_available_fields`: the sorted
set of column names minus the excluded ones. -/
def available_fields_core (cols : List String) (exclude_columns : List String) : List String :=
  let all_df_columns := cols.dedup
  let excluded_columns := (exclude_columns.map (exclude_pattern_hits all_df_columns)).flatten
  pySortedStr (all_df_columns.filter (fun c => !(excluded_columns.contains c)))

/-- `SchemaDiscovery._get_all_available_fields`: raises `ValueError`
when the DataFrame is `None` or empty, otherwise returns the sorted set
of column names minus the excluded ones. -/
def get_all_available_fields (df : Option GFrame) (exclude_columns : List String) :
    Except String (List String) :=
  match df with
  | none => .error "DataFrame is None or empty during schema discovery"
  | some f =>
    if f.nrows = 0 ∨ f.cols = [] then
      .error "DataFrame is None or empty during schema discovery"
    else
      .ok (available_fields_core f.cols exclude_columns)

/-- Exclusion as worded by the claim: a column is dropped when some
exclude entry matches it exactly (case-sensitively) or, for an entry
containing `'*'`, glob-matches it.  Stated for comparison with
`get_all_available_fields`. -/
def claim_excluded_match (exclude_columns : List String) (c : String) : Bool :=
  exclude_columns.any (fun p => p == c || (p.toList.contains '*' && globMatch p.toList c.toList))

/-- The retained field universe as worded by the claim. -/
def claim_retained (cols : List String) (exclude_columns : List String) : List String :=
  pySortedStr ((cols.dedup).filter (fun c => !(claim_excluded_match exclude_columns c)))

/-- The exclusion actually performed by the source, as a predicate on a
column `c` of the frame: some entry equals `c`, or some entry that is
not itself a column name contains `'*'` and glob-matches `c`. -/
def amended_excluded (cols : List String) (exclude_columns : List String) (c : String) : Prop :=
  ∃ p ∈ exclude_columns,
    p = c ∨ (p ∉ cols ∧ p.toList.contains '*' = true ∧ globMatch p.toList c.toList = true)

/- ---------------------------------------------------------------
   Concrete inputs used by the claim theorems
   --------------------------------------------------------------- -/

/-- A dataset whose `priority_score` column is present, non-empty and
constant (every value `50`). -/
def constant_priority_frame : Frame := ⟨["priority_score"], [[50], [50]]⟩

/-- A two-row dataset with no threshold-bearing columns. -/
def two_row_frame : Frame := ⟨["x"], [[1], [2]]⟩

/-- A filtering configuration whose three selection weights sum to
`1.5`, not `1.0`. -/
def invalid_weights_criteria : FilteringCriteria :=
  ⟨some 1, some ⟨0.5, 0.5, 0.5⟩, none, none⟩

/-- `max_rows = 1`, everything else from the `_load_config` defaults. -/
def max_one_criteria : FilteringCriteria := ⟨some 1, none, none, none⟩

/-- The PRNG draws of one run of the unseeded generator. -/
def run_one_rng : ℕ → ℚ := fun i => if i = 0 then 9/10 else 1/10

/-- The PRNG draws of another run of the unseeded generator. -/
def run_two_rng : ℕ → ℚ := fun i => if i = 0 then 1/10 else 9/10

/- ---------------------------------------------------------------
   Claim theorems
   --------------------------------------------------------------- -/

/-- C1: the claim asserts that min-max normalization returns `0.5` for
every row (never NaN) when all values of the priority column are equal.
The source computes `(v - min) / (max - min)` with no degenerate-range
guard, so on a present, non-empty, constant `priority_score` column
every row's normalized score is the float NaN (`none`), not `0.5`. -/
theorem normalize_priority_score_constant_column_nan :
    normalize_priority_score constant_priority_frame = [none, none] ∧
    normalize_priority_score constant_priority_frame ≠
      List.replicate constant_priority_frame.rows.length (some 0.5) := by
  have h : normalize_priority_score constant_priority_frame = [none, none] := by
    norm_num [normalize_priority_score, constant_priority_frame, Frame.colValues, rowVal,
      List.indexOf?, List.findIdx?]
  refine ⟨h, ?_⟩
  rw [h]
  simp [constant_priority_frame, List.replicate_succ]

/-- C2: the claim asserts that a configuration whose selection weights
do not sum to `1.0` is rejected with `InvalidWeightsError` before any
per-row scoring.  The source contains no weight validation at all: with
weights `0.5 + 0.5 + 0.5 = 1.5` the scoring runs and `filter_data`
completes, returning a selected row. -/
theorem filter_data_scores_with_invalid_weights :
    (0.5 + 0.5 + 0.5 : ℚ) ≠ 1 ∧
    (calculate_selection_scores (fun _ => 0) two_row_frame invalid_weights_criteria).map
      (fun s => s.selection_score) = [some 0.5, some 0.5] ∧
    filter_data (fun _ => 0) two_row_frame invalid_weights_criteria =
      (⟨["x"], [[1]]⟩, 2, 1) := by
  refine ⟨by norm_num, ?_, ?_⟩
  · norm_num [calculate_selection_scores, combine_scores, two_row_frame,
      invalid_weights_criteria, calculate_representative_score,
      normalize_priority_score, normalize_volume_score, fadd, fmul, List.range_succ]
  · norm_num [filter_data, apply_basic_filters, select_representative_subset,
      nlargest_by_selection, sortDescBy, insertDescBy,
      calculate_selection_scores, combine_scores, two_row_frame,
      invalid_weights_criteria, calculate_representative_score,
      normalize_priority_score, normalize_volume_score, fadd, fmul, List.range_succ]

/-- C3: the claim asserts that running `filter_data` twice on identical
input and configuration yields an identical selected row set in
identical order.  The representativeness component is drawn from an
unseeded `np.random.random`, so two runs see different PRNG streams:
with the draws of `run_one_rng` the selection is row `[1]`, with those
of `run_two_rng` it is row `[2]` — both streams being legitimate
`np.random.random` outputs (all draws in `[0, 1)`). -/
theorem filter_data_depends_on_rng_stream :
    (∀ i, 0 ≤ run_one_rng i ∧ run_one_rng i < 1) ∧
    (∀ i, 0 ≤ run_two_rng i ∧ run_two_rng i < 1) ∧
    filter_data run_one_rng two_row_frame max_one_criteria = (⟨["x"], [[1]]⟩, 2, 1) ∧
    filter_data run_two_rng two_row_frame max_one_criteria = (⟨["x"], [[2]]⟩, 2, 1) ∧
    filter_data run_one_rng two_row_frame max_one_criteria ≠
      filter_data run_two_rng two_row_frame max_one_criteria := by
  have h1 : filter_data run_one_rng two_row_frame max_one_criteria =
      (⟨["x"], [[1]]⟩, 2, 1) := by
    norm_num [filter_data, apply_basic_filters, select_representative_subset,
      nlargest_by_selection, sortDescBy, insertDescBy,
      calculate_selection_scores, combine_scores, two_row_frame, max_one_criteria,
      run_one_rng, calculate_representative_score,
      normalize_priority_score, normalize_volume_score,
      fadd, fmul, default_selection_weights, List.range_succ]
  have h2 : filter_data run_two_rng two_row_frame max_one_criteria =
      (⟨["x"], [[2]]⟩, 2, 1) := by
    norm_num [filter_data, apply_basic_filters, select_representative_subset,
      nlargest_by_selection, sortDescBy, insertDescBy,
      calculate_selection_scores, combine_scores, two_row_frame, max_one_criteria,
      run_two_rng, calculate_representative_score,
      normalize_priority_score, normalize_volume_score,
      fadd, fmul, default_selection_weights, List.range_succ]
  refine ⟨fun i => ?_, fun i => ?_, h1, h2, ?_⟩
  · unfold run_one_rng
    split <;> norm_num
  · unfold run_two_rng
    split <;> norm_num
  · rw [h1, h2]
    simp

/-- C4: the claim asserts that schema discovery raises
`EmptyDatasetError` when every source fails.  The source's
`_discover_fresh_schema` logs and skips each unreadable source (first
conjunct: a failed source contributes nothing, discovery continues with
the rest), but when all sources fail it returns the empty field mapping
— there is no `EmptyDatasetError` (or any other exception) anywhere on
this path. -/
theorem discover_fresh_schema_all_sources_failed :
    (∀ rest : List (Option SDFrame),
      discover_fresh_schema (none :: rest) = discover_fresh_schema rest) ∧
    discover_fresh_schema [none, none] = [] :=
  ⟨fun _ => rfl, rfl⟩

/-- C6: the classifier is a total function (the Lean embedding, like
the Python, has no failure path), and whenever no configured substring
pattern occurs in the lower-cased question the fallback branch returns
exactly `PERFORMANCE_ANALYSIS`. -/
theorem classify_question_type_default_fallback (q : String)
    (h : ∀ p ∈ question_patterns_performance ++ question_patterns_location ++
          question_patterns_trend ++ question_patterns_recommendation,
        pyInStr p (pyLower q) = false) :
    classify_question_type q = QuestionType.performance_analysis := by
  have hp : question_patterns_performance.any (fun p => pyInStr p (pyLower q)) = false := by
    rw [List.any_eq_false]
    intro p hp
    simp [h p (by simp [hp])]
  have hl : question_patterns_location.any (fun p => pyInStr p (pyLower q)) = false := by
    rw [List.any_eq_false]
    intro p hp
    simp [h p (by simp [hp])]
  have ht : question_patterns_trend.any (fun p => pyInStr p (pyLower q)) = false := by
    rw [List.any_eq_false]
    intro p hp
    simp [h p (by simp [hp])]
  have hr : question_patterns_recommendation.any (fun p => pyInStr p (pyLower q)) = false := by
    rw [List.any_eq_false]
    intro p hp
    simp [h p (by simp [hp])]
  simp [classify_question_type, hp, hl, ht, hr]

/-- Witness for C6 at the concrete unclassifiable question `"hello"`. -/
theorem classify_question_type_default_fallback_witness :
    classify_question_type "hello" = QuestionType.performance_analysis :=
  classify_question_type_default_fallback "hello" (by decide)

/-- C10: for every input question the classifier returns one of exactly
four values; `ROOT_CAUSE_ANALYSIS` and `UNSUPPORTED`, though members of
the closed enumeration, are never returned because no pattern group
exists for them and the fallback is `PERFORMANCE_ANALYSIS`. -/
theorem classify_question_type_range (q : String) :
    (classify_question_type q = QuestionType.performance_analysis ∨
     classify_question_type q = QuestionType.location_comparison ∨
     classify_question_type q = QuestionType.trend_identification ∨
     classify_question_type q = QuestionType.recommendation_generation) ∧
    classify_question_type q ≠ QuestionType.root_cause_analysis ∧
    classify_question_type q ≠ QuestionType.unsupported := by
  have h : ∀ t : QuestionType, t = classify_question_type q →
      (t = QuestionType.performance_analysis ∨
       t = QuestionType.location_comparison ∨
       t = QuestionType.trend_identification ∨
       t = QuestionType.recommendation_generation) := by
    intro t ht
    rw [ht]
    simp only [classify_question_type]
    split
    · exact Or.inl rfl
    · split
      · exact Or.inr (Or.inl rfl)
      · split
        · exact Or.inr (Or.inr (Or.inl rfl))
        · split
          · exact Or.inr (Or.inr (Or.inr rfl))
          · exact Or.inl rfl
  have h4 := h _ rfl
  refine ⟨h4, ?_, ?_⟩ <;> rcases h4 with h' | h' | h' | h' <;> rw [h'] <;> simp

/-- C9: for every discovered field list and knowledge base, the merge
step leaves the five freshly discovered statistics (name, dataType,
completeness, uniqueValueCount, sampleValues) of every field unchanged,
whether or not the field has a knowledge-base entry — only the four
semantic attributes can change. -/
theorem merge_discovery_preserves_statistics
    (fields : List FieldMetadata) (cfg : List (String × ConfigFieldDef)) :
    (merge_discovery_with_config fields cfg).map field_statistics =
      fields.map field_statistics := by
  unfold merge_discovery_with_config
  rw [List.map_map]
  apply List.map_congr_left
  intro f _
  unfold Function.comp merge_one_field
  cases cfg.lookup f.name <;> simp [field_statistics]

/-- The fresh discovery of field `SALES` with completeness `0.75`. -/
def sales_field_fresh : FieldMetadata :=
  ⟨"SALES", "numeric", "", 3, some 0.75, 10, [], [], []⟩

/-- Accumulator characterization of the `new_fields` component of the
learning loop. -/
theorem learning_foldl_new (kb : List (String × Option ℚ)) :
    ∀ (fields : List FieldMetadata) (acc : LearningInsights),
      (fields.foldl (learning_step kb) acc).new_fields =
        acc.new_fields ++
          (fields.filter (fun f => (kb.lookup f.name).isNone)).map new_field_rec := by
  intro fields
  induction fields with
  | nil => intro acc; simp
  | cons f fs ih =>
    intro acc
    rw [List.foldl_cons, ih]
    unfold learning_step
    cases h : kb.lookup f.name with
    | none => simp [h]
    | some stored =>
      by_cases hf : completeness_delta_flag f.completeness (stored.getD 1) = true
      · simp [h, hf]
      · simp [h, hf]

/-- Accumulator characterization of the `updated_statistics` component
of the learning loop. -/
theorem learning_foldl_upd (kb : List (String × Option ℚ)) :
    ∀ (fields : List FieldMetadata) (acc : LearningInsights),
      (fields.foldl (learning_step kb) acc).updated_statistics =
        acc.updated_statistics ++
          fields.filterMap (fun f =>
            (kb.lookup f.name).bind (fun st =>
              if completeness_delta_flag f.completeness (st.getD 1) then
                some (updated_stat_rec f st)
              else none)) := by
  intro fields
  induction fields with
  | nil => intro acc; simp
  | cons f fs ih =>
    intro acc
    rw [List.foldl_cons, ih]
    unfold learning_step
    cases h : kb.lookup f.name with
    | none => simp [h]
    | some stored =>
      by_cases hf : completeness_delta_flag f.completeness (stored.getD 1) = true
      · simp [h, hf]
      · simp [h, hf]

/-- C8: a discovered field is emitted in `new_fields` exactly when the
knowledge base has no entry for its name, and a knowledge-base field is
emitted in `updated_statistics` exactly when the absolute difference
between its freshly computed completeness and the stored completeness
exceeds `0.1` (both stated as exact characterizations of the two output
lists); in particular a stored completeness of `0.9` against a fresh
`0.75` (delta `0.15`) is flagged while a stored `0.8` (delta `0.05`)
is not. -/
theorem learning_opportunities_new_and_updated :
    (∀ (fields : List FieldMetadata) (kb : List (String × Option ℚ)),
      (identify_config_learning_opportunities fields kb).new_fields =
        (fields.filter (fun f => (kb.lookup f.name).isNone)).map new_field_rec ∧
      (identify_config_learning_opportunities fields kb).updated_statistics =
        fields.filterMap (fun f =>
          (kb.lookup f.name).bind (fun st =>
            if completeness_delta_flag f.completeness (st.getD 1) then
              some (updated_stat_rec f st)
            else none))) ∧
    (identify_config_learning_opportunities [sales_field_fresh]
        [("SALES", some 0.9)]).updated_statistics = [⟨"SALES", 0.9, some 0.75⟩] ∧
    (identify_config_learning_opportunities [sales_field_fresh]
        [("SALES", some 0.8)]).updated_statistics = [] := by
  refine ⟨fun fields kb => ⟨?_, ?_⟩, ?_, ?_⟩
  · rw [identify_config_learning_opportunities, learning_foldl_new]
    simp
  · rw [identify_config_learning_opportunities, learning_foldl_upd]
    simp
  · norm_num [identify_config_learning_opportunities, learning_step, sales_field_fresh,
      List.lookup, completeness_delta_flag, updated_stat_rec]
    rw [abs_of_nonneg (by norm_num : (0 : ℚ) ≤ 3 / 20)]
    norm_num
  · norm_num [identify_config_learning_opportunities, learning_step, sales_field_fresh,
      List.lookup, completeness_delta_flag, updated_stat_rec]
    rw [abs_of_nonneg (by norm_num : (0 : ℚ) ≤ 1 / 20)]
    norm_num

/-- Evaluation of the float sum when no addend is NaN. -/
theorem fsum_all_some :
    ∀ (l : List (Option ℚ)) (a : ℚ), (∀ x ∈ l, x.isSome) →
      l.foldl fadd (some a) = some (a + (l.map (fun x => x.getD 0)).sum) := by
  intro l
  induction l with
  | nil => intro a _; simp
  | cons x xs ih =>
    intro a hx
    obtain ⟨b, rfl⟩ := Option.isSome_iff_exists.mp (hx x (by simp))
    rw [List.foldl_cons]
    show xs.foldl fadd (some (a + b)) = _
    rw [ih (a + b) (fun y hy => hx y (by simp [hy]))]
    simp only [List.map_cons, List.sum_cons, Option.getD_some, Option.some.injEq]
    ring

/-- A sum of values in `[0, 1]` lies between `0` and the list length. -/
theorem sum_nonneg_le_length :
    ∀ (l : List ℚ), (∀ x ∈ l, 0 ≤ x ∧ x ≤ 1) → 0 ≤ l.sum ∧ l.sum ≤ (l.length : ℚ) := by
  intro l
  induction l with
  | nil => intro _; simp
  | cons x xs ih =>
    intro h
    obtain ⟨hx0, hx1⟩ := h x (by simp)
    obtain ⟨hs0, hs1⟩ := ih (fun y hy => h y (by simp [hy]))
    simp only [List.sum_cons, List.length_cons]
    push_cast
    constructor <;> linarith

/-- Python `min` against a non-NaN left argument agrees with `min`. -/
theorem pymin_some (x b : ℚ) : pymin (some x) b = some (min x b) := by
  show (if b < x then some b else some x) = some (min x b)
  rcases lt_or_le b x with h | h
  · rw [if_pos h, min_eq_right h.le]
  · rw [if_neg (not_lt.mpr h), min_eq_left h]

/-- C7: for every non-empty list of discovered fields (whose
completeness values, as produced by discovery on sources with rows, lie
in `[0, 1]`) and every knowledge base, the discovery confidence equals
`0.6 * mean(completeness) + 0.4 * (fraction of fields found in the
knowledge base)` capped at `0.95`, and therefore lies in `[0, 0.95]`. -/
theorem calculate_discovery_confidence_bounds
    (fields : List FieldMetadata) (kb : List (String × Option ℚ))
    (hne : fields ≠ [])
    (hc : ∀ f ∈ fields, ∃ c, f.completeness = some c ∧ 0 ≤ c ∧ c ≤ 1) :
    ∃ v, calculate_discovery_confidence fields kb = some v ∧
      v = min (((fields.map (fun f => f.completeness.getD 0)).sum / (fields.length : ℚ)) * 0.6
            + (((fields.filter (fun f => kb.any (fun e => e.1 == f.name))).length : ℚ)
                / (fields.length : ℚ)) * 0.4) 0.95 ∧
      0 ≤ v ∧ v ≤ 0.95 := by
  have hlen : (0 : ℚ) < (fields.length : ℚ) := by
    have := List.length_pos.mpr hne
    exact_mod_cast this
  have hn0 : (fields.length : ℚ) ≠ 0 := ne_of_gt hlen
  have hni : ¬(fields.isEmpty = true) := by
    simp [List.isEmpty_iff, hne]
  have hsome : ∀ x ∈ fields.map (fun f => f.completeness), x.isSome := by
    intro x hx
    obtain ⟨f, hf, rfl⟩ := List.mem_map.mp hx
    obtain ⟨c, hfc, _⟩ := hc f hf
    simp [hfc]
  have hsum : fsum (fields.map (fun f => f.completeness)) =
      some ((fields.map (fun f => f.completeness.getD 0)).sum) := by
    unfold fsum
    rw [fsum_all_some _ 0 hsome]
    simp only [List.map_map, zero_add]
    rfl
  set S : ℚ := (fields.map (fun f => f.completeness.getD 0)).sum with hS
  set k : ℚ := ((fields.filter (fun f => kb.any (fun e => e.1 == f.name))).length : ℚ) with hk
  have hSb : 0 ≤ S ∧ S ≤ (fields.length : ℚ) := by
    have := sum_nonneg_le_length (fields.map (fun f => f.completeness.getD 0)) ?_
    · simpa using this
    · intro x hx
      obtain ⟨f, hf, rfl⟩ := List.mem_map.mp hx
      obtain ⟨c, hfc, hc0, hc1⟩ := hc f hf
      simp [hfc]
      exact ⟨hc0, hc1⟩
  have hkb : 0 ≤ k ∧ k ≤ (fields.length : ℚ) := by
    rw [hk]
    constructor
    · positivity
    · exact_mod_cast List.length_filter_le _ _
  have havg0 : 0 ≤ S / (fields.length : ℚ) := div_nonneg hSb.1 hlen.le
  have havg1 : S / (fields.length : ℚ) ≤ 1 := (div_le_one hlen).mpr hSb.2
  have hr0 : 0 ≤ k / (fields.length : ℚ) := div_nonneg hkb.1 hlen.le
  have hr1 : k / (fields.length : ℚ) ≤ 1 := (div_le_one hlen).mpr hkb.2
  unfold calculate_discovery_confidence
  rw [if_neg hni]
  simp only [hsum, fdiv, fmul, fadd, if_neg hn0]
  rw [pymin_some]
  refine ⟨_, rfl, rfl, ?_, ?_⟩
  · apply le_min
    · nlinarith
    · norm_num
  · exact min_le_right _ _

/-- Witness for C7 at a concrete one-field discovery with an empty
knowledge base. -/
theorem calculate_discovery_confidence_bounds_witness :
    ∃ v, calculate_discovery_confidence [sales_field_fresh] [] = some v ∧
      v = min ((([sales_field_fresh].map (fun f => f.completeness.getD 0)).sum
              / (([sales_field_fresh] : List FieldMetadata).length : ℚ)) * 0.6
          + ((([sales_field_fresh].filter
                (fun f => ([] : List (String × Option ℚ)).any (fun e => e.1 == f.name))).length : ℚ)
              / (([sales_field_fresh] : List FieldMetadata).length : ℚ)) * 0.4) 0.95 ∧
      0 ≤ v ∧ v ≤ 0.95 :=
  calculate_discovery_confidence_bounds [sales_field_fresh] [] (by simp)
    (fun f hf => by
      rw [List.mem_singleton] at hf
      subst hf
      exact ⟨0.75, rfl, by norm_num, by norm_num⟩)

/-- Membership through ascending insertion. -/
theorem mem_insertAscStr (x a : String) :
    ∀ (l : List String), a ∈ insertAscStr x l ↔ a = x ∨ a ∈ l := by
  intro l
  induction l with
  | nil => simp [insertAscStr]
  | cons y ys ih =>
    unfold insertAscStr
    split
    · simp
    · simp only [List.mem_cons, ih]
      tauto

/-- Sorting with `pySortedStr` preserves membership. -/
theorem mem_pySortedStr (a : String) :
    ∀ (l : List String), a ∈ pySortedStr l ↔ a ∈ l := by
  intro l
  induction l with
  | nil => simp [pySortedStr]
  | cons x xs ih =>
    show a ∈ insertAscStr x (pySortedStr xs) ↔ _
    rw [mem_insertAscStr]
    simp [ih]

/-- Membership in one exclude entry's contribution. -/
theorem mem_exclude_pattern_hits (colsSet : List String) (p c : String) :
    c ∈ exclude_pattern_hits colsSet p ↔
      (p ∈ colsSet ∧ c = p) ∨
      (p ∉ colsSet ∧ p.toList.contains '*' = true ∧ c ∈ colsSet ∧ pyFnmatch c p = true) := by
  unfold exclude_pattern_hits
  split
  · rename_i h
    have hp : p ∈ colsSet := by simpa using h
    simp [hp]
  · rename_i h
    have hp : p ∉ colsSet := by simpa using h
    split
    · rename_i hstar
      simp only [List.mem_filter]
      constructor
      · rintro ⟨h1, h2⟩
        exact Or.inr ⟨hp, hstar, h1, h2⟩
      · rintro (⟨h1, _⟩ | ⟨_, _, h3, h4⟩)
        · exact absurd h1 hp
        · exact ⟨h3, h4⟩
    · rename_i hstar
      simp only [List.not_mem_nil, false_iff]
      rintro (⟨h1, _⟩ | ⟨_, h2, _, _⟩)
      · exact hp h1
      · exact hstar h2

/-- The `excluded_columns` set built by the source matches the amended
exclusion predicate, for columns of the frame. -/
theorem excluded_columns_iff (cols excl : List String) (c : String) (hc : c ∈ cols) :
    c ∈ (excl.map (exclude_pattern_hits cols.dedup)).flatten ↔
      amended_excluded cols excl c := by
  rw [List.mem_flatten]
  constructor
  · rintro ⟨l, hl, hcl⟩
    obtain ⟨p, hp, rfl⟩ := List.mem_map.mp hl
    rw [mem_exclude_pattern_hits] at hcl
    rcases hcl with ⟨_, rfl⟩ | ⟨hnp, hstar, _, hfn⟩
    · exact ⟨c, hp, Or.inl rfl⟩
    · exact ⟨p, hp, Or.inr ⟨fun hmem => hnp (List.mem_dedup.mpr hmem), hstar, hfn⟩⟩
  · rintro ⟨p, hp, hm⟩
    refine ⟨exclude_pattern_hits cols.dedup p, List.mem_map_of_mem _ hp, ?_⟩
    rw [mem_exclude_pattern_hits]
    rcases hm with rfl | ⟨hnp, hstar, hg⟩
    · exact Or.inl ⟨List.mem_dedup.mpr hc, rfl⟩
    · exact Or.inr ⟨fun hmem => hnp (List.mem_dedup.mp hmem), hstar,
        List.mem_dedup.mpr hc, hg⟩

/-- C5 (amended): for a non-empty frame, `_get_all_available_fields`
returns exactly the column names minus those excluded, where an exclude
entry excludes the column it literally equals, and an entry containing
`'*'` that is *not* itself a column name excludes every column it
glob-matches (an entry that is literally a column name skips its own
wildcard expansion via `continue`). -/
theorem get_all_available_fields_spec (cols excl : List String) (n : ℕ)
    (hn : n ≠ 0) (hcols : cols ≠ []) :
    ∃ out, get_all_available_fields (some ⟨cols, n⟩) excl = Except.ok out ∧
      ∀ c, c ∈ out ↔ c ∈ cols ∧ ¬ amended_excluded cols excl c := by
  have hcond : ¬(n = 0 ∨ cols = []) := by
    push_neg
    exact ⟨hn, hcols⟩
  have heval : get_all_available_fields (some ⟨cols, n⟩) excl =
      if n = 0 ∨ cols = [] then
        Except.error "DataFrame is None or empty during schema discovery"
      else Except.ok (available_fields_core cols excl) := rfl
  rw [heval, if_neg hcond]
  refine ⟨_, rfl, ?_⟩
  intro c
  unfold available_fields_core
  rw [mem_pySortedStr, List.mem_filter, List.mem_dedup]
  constructor
  · rintro ⟨hcc, hnb⟩
    refine ⟨hcc, fun hex => ?_⟩
    have hmem := (excluded_columns_iff cols excl c hcc).mpr hex
    have : ((excl.map (exclude_pattern_hits cols.dedup)).flatten.contains c) = true := by
      simpa using hmem
    rw [this] at hnb
    simp at hnb
  · rintro ⟨hcc, hnex⟩
    refine ⟨hcc, ?_⟩
    have hnm : c ∉ (excl.map (exclude_pattern_hits cols.dedup)).flatten :=
      fun hmem => hnex ((excluded_columns_iff cols excl c hcc).mp hmem)
    simp [hnm]

/-- Counterexample to C5 as stated: when a wildcard entry is itself
literally a column name (`"A*B"` among columns `A*B`, `AXB`), the
source takes the exact-match branch and `continue`s, skipping the
wildcard expansion, so `AXB` — which the entry glob-matches — is
retained; under the claim's wording `AXB` would be excluded. -/
theorem get_all_available_fields_wildcard_literal_cex :
    get_all_available_fields (some ⟨["A*B", "AXB"], 1⟩) ["A*B"] = Except.ok ["AXB"] ∧
    claim_retained ["A*B", "AXB"] ["A*B"] = [] ∧
    get_all_available_fields (some ⟨["A*B", "AXB"], 1⟩) ["A*B"] ≠
      Except.ok (claim_retained ["A*B", "AXB"] ["A*B"]) := by
  have h1 : get_all_available_fields (some ⟨["A*B", "AXB"], 1⟩) ["A*B"] =
      Except.ok ["AXB"] := by rfl
  have h2 : claim_retained ["A*B", "AXB"] ["A*B"] = [] := by rfl
  refine ⟨h1, h2, ?_⟩
  rw [h1, h2]
  simp

/-- Witness for C5 (amended) at the claim's own instance: columns
`CREATED_AT`, `CREATED_BY`, `UPDATED_AT`, `SALES` with exclude entry
`CREATED_*` retain exactly `SALES` and `UPDATED_AT` (sorted). -/
theorem get_all_available_fields_spec_witness :
    get_all_available_fields (some ⟨["CREATED_AT", "CREATED_BY", "UPDATED_AT", "SALES"], 2⟩)
        ["CREATED_*"] = Except.ok ["SALES", "UPDATED_AT"] ∧
    (∃ out, get_all_available_fields
        (some ⟨["CREATED_AT", "CREATED_BY", "UPDATED_AT", "SALES"], 2⟩)
        ["CREATED_*"] = Except.ok out ∧
      ∀ c, c ∈ out ↔ c ∈ ["CREATED_AT", "CREATED_BY", "UPDATED_AT", "SALES"] ∧
        ¬ amended_excluded ["CREATED_AT", "CREATED_BY", "UPDATED_AT", "SALES"]
            ["CREATED_*"] c) :=
  ⟨by rfl, get_all_available_fields_spec _ _ 2 (by decide) (by decide)⟩
